import Mathlib

/-!
Verification of the session and delivery-guarantee core of the paho.mqtt.c
client, against its data-model header `src/Clients.h` and the system
specification.  The header defines the data structures (`Publications`,
`Messages`, `Clients`, connection-state codes); the behavioural components
(Publication Store, Message Ledger, Connection State Machine, Keepalive
Scheduler, Persistence Adapter) live in repository files that are not part
of the provided sources, so those are modelled from the specification text
and marked as such in their doc comments.
-/

/- ===== Connection state codes (src/Clients.h lines 99-113) ===== -/

/-- `#define NOT_IN_PROGRESS 0x0` — no connection in progress. -/
def NOT_IN_PROGRESS : Int := 0x0

/-- `#define TCP_IN_PROGRESS 0x1` — TCP connection in progress. -/
def TCP_IN_PROGRESS : Int := 0x1

/-- `#define SSL_IN_PROGRESS 0x2` — SSL connection in progress. -/
def SSL_IN_PROGRESS : Int := 0x2

/-- `#define WEBSOCKET_IN_PROGRESS 0x3` — websocket connection in progress. -/
def WEBSOCKET_IN_PROGRESS : Int := 0x3

/-- `#define WAIT_FOR_CONNACK 0x4` — TCP completed, waiting for MQTT ACK. -/
def WAIT_FOR_CONNACK : Int := 0x4

/-- `#define PROXY_CONNECT_IN_PROGRESS 0x5` — proxy connection in progress. -/
def PROXY_CONNECT_IN_PROGRESS : Int := 0x5

/-- `#define DISCONNECTING (-2)` — disconnecting. -/
def DISCONNECTING : Int := -2

/-- Storing an integer into the C bit-field `signed int connect_state : 4`
(src/Clients.h line 131) and reading it back: the value is reduced modulo
2^4 and re-interpreted as a two's-complement 4-bit signed value in
[-8, 7]. -/
def storeConnectState4 (x : Int) : Int :=
  let r := x % 16
  if r < 8 then r else r - 16

/- ===== The Clients structure (src/Clients.h lines 115-163) =====
Scalar and flag fields of `struct Clients`; the C bit-fields of width 1
(`unsigned int ... : 1`) are modelled as `Bool`, the 4-bit signed bit-field
`connect_state` and the plain `int` fields as `Int`, and the `unsigned int`
field `qentry_seqno` as `Nat`. -/

structure Clients where
  cleansession : Bool          -- unsigned int cleansession : 1
  cleanstart : Bool            -- unsigned int cleanstart : 1
  connected : Bool             -- unsigned int connected : 1
  good : Bool                  -- unsigned int good : 1
  ping_outstanding : Bool      -- unsigned int ping_outstanding : 1
  ping_due : Bool              -- unsigned int ping_due : 1
  connect_state : Int          -- signed int connect_state : 4
  ping_due_time : Nat          -- START_TIME_TYPE ping_due_time
  msgID : Int                  -- int msgID
  keepAliveInterval : Int      -- int keepAliveInterval
  retryInterval : Int          -- int retryInterval
  maxInflightMessages : Int    -- int maxInflightMessages
  connect_count : Int          -- int connect_count
  connect_sent : Int           -- int connect_sent
  qentry_seqno : Nat           -- unsigned int qentry_seqno
  deriving DecidableEq

/-- "The entire structure is initialized to 0 on creation, so all fields
default to 0" (src/Clients.h line 117): the zero-initialized `Clients`
record.  A `:1` bit-field holding 0 reads back as false, the `:4` signed
bit-field and the plain integer fields read back 0. -/
def zeroClients : Clients :=
  { cleansession := false
    cleanstart := false
    connected := false
    good := false
    ping_outstanding := false
    ping_due := false
    connect_state := 0
    ping_due_time := 0
    msgID := 0
    keepAliveInterval := 0
    retryInterval := 0
    maxInflightMessages := 0
    connect_count := 0
    connect_sent := 0
    qentry_seqno := 0 }

/- ===== Theorems for C4 and C10 ===== -/

/-- Claim C4: the seven connection-state codes have exactly the numeric
values NOT_IN_PROGRESS=0, TCP_IN_PROGRESS=1, SSL_IN_PROGRESS=2,
WEBSOCKET_IN_PROGRESS=3, WAIT_FOR_CONNACK=4, PROXY_CONNECT_IN_PROGRESS=5,
DISCONNECTING=-2, and each is representable without loss in the 4-bit
signed `connect_state` bit-field: storing any of the seven codes and
reading it back yields the same value. -/
theorem connect_state_codes_roundtrip :
    NOT_IN_PROGRESS = 0 ∧ TCP_IN_PROGRESS = 1 ∧ SSL_IN_PROGRESS = 2 ∧
    WEBSOCKET_IN_PROGRESS = 3 ∧ WAIT_FOR_CONNACK = 4 ∧
    PROXY_CONNECT_IN_PROGRESS = 5 ∧ DISCONNECTING = -2 ∧
    storeConnectState4 NOT_IN_PROGRESS = NOT_IN_PROGRESS ∧
    storeConnectState4 TCP_IN_PROGRESS = TCP_IN_PROGRESS ∧
    storeConnectState4 SSL_IN_PROGRESS = SSL_IN_PROGRESS ∧
    storeConnectState4 WEBSOCKET_IN_PROGRESS = WEBSOCKET_IN_PROGRESS ∧
    storeConnectState4 WAIT_FOR_CONNACK = WAIT_FOR_CONNACK ∧
    storeConnectState4 PROXY_CONNECT_IN_PROGRESS = PROXY_CONNECT_IN_PROGRESS ∧
    storeConnectState4 DISCONNECTING = DISCONNECTING := by
  decide

/-- Claim C10: a freshly created `Clients` record is zero-initialized, so
its initial state has connect_state = NOT_IN_PROGRESS (0), connected =
false, good = false, cleansession = false, cleanstart = false,
ping_outstanding = false, ping_due = false, msgID = 0 and qentry_seqno = 0:
a new session starts idle, unconnected, with no ping obligation. -/
theorem zeroClients_initial_state :
    zeroClients.connect_state = NOT_IN_PROGRESS ∧
    zeroClients.connected = false ∧
    zeroClients.good = false ∧
    zeroClients.cleansession = false ∧
    zeroClients.cleanstart = false ∧
    zeroClients.ping_outstanding = false ∧
    zeroClients.ping_due = false ∧
    zeroClients.msgID = 0 ∧
    zeroClients.qentry_seqno = 0 := by
  decide

/- ===== C1: Publication Store (spec section 4.1) =====
The `Publications` structure (src/Clients.h lines 41-49) carries the
`refcount` field; the acquire/retain/release operations live in repository
code not among the provided sources, so the store is modelled from the
specification. -/

/-- Modelled from the spec: the lifecycle state of one Publication under
the Publication Store operations (the implementation of
acquire/retain/release is missing from the provided sources).  `live n`
is an allocated Publication whose `refcount` field holds `n`; `freed` is
the state after the topic and payload have been freed. -/
inductive PubState where
  | live (refcount : Int)
  | freed
  deriving DecidableEq

/-- Modelled from the spec: the events a live Publication can undergo
after acquisition. -/
inductive PubEvent where
  | retain
  | release
  deriving DecidableEq

/-- Modelled from the spec (missing Publication Store code):
`retain(ref)` increments the count; `release(ref)` decrements the count
and, when it reaches zero, the payload and topic are freed.  A freed
Publication is inaccessible: no operation applies to it. -/
def pubStep : PubState → PubEvent → Option PubState
  | .live n, .retain => some (.live (n + 1))
  | .live n, .release => if n = 1 then some .freed else some (.live (n - 1))
  | .freed, _ => none

/-- Modelled from the spec: `acquire(topic, payload)` creates a new
Publication with count = 1. -/
def pubAcquire : PubState := .live 1

/-- The Publication states reachable from `pubAcquire` by the store
operations. -/
inductive PubReachable : PubState → Prop where
  | init : PubReachable pubAcquire
  | step {s s' : PubState} {e : PubEvent} :
      PubReachable s → pubStep s e = some s' → PubReachable s'


/-- Claim C1: the Publication reference count never becomes negative and
is at least 1 in every reachable live state; `acquire` creates a
Publication with count = 1; `retain` increments the count and `release`
decrements it; the topic and payload are freed exactly when the count
reaches zero — a release at count 1 frees, a release at a higher count
does not — and a freed Publication is inaccessible, so the count reaches
zero exactly once. -/
theorem publication_refcount_invariant (s : PubState) (hs : PubReachable s) :
    (∀ n : Int, s = PubState.live n → 1 ≤ n) ∧
    pubAcquire = PubState.live 1 ∧
    (∀ n : Int, pubStep (PubState.live n) PubEvent.retain
        = some (PubState.live (n + 1))) ∧
    pubStep (PubState.live 1) PubEvent.release = some PubState.freed ∧
    (∀ n : Int, n ≠ 1 → pubStep (PubState.live n) PubEvent.release
        = some (PubState.live (n - 1))) ∧
    (∀ e : PubEvent, pubStep PubState.freed e = none) := by
  refine ⟨?_, rfl, fun n => rfl, by simp [pubStep], ?_, fun e => rfl⟩
  · induction hs with
    | init => intro n hn; cases hn; exact le_refl 1
    | @step t t' e ht hstep ih =>
      intro n hn
      subst hn
      cases t with
      | freed => simp [pubStep] at hstep
      | live m =>
        have hm : 1 ≤ m := ih m rfl
        cases e with
        | retain =>
          simp only [pubStep, Option.some.injEq] at hstep
          cases hstep
          omega
        | release =>
          simp only [pubStep] at hstep
          by_cases h1 : m = 1
          · simp [h1] at hstep
          · simp [h1] at hstep
            cases hstep
            omega
  · intro n hn
    simp [pubStep, hn]

/-- Witness for C1: applying the invariant at the state reached by
acquire-then-retain, whose count 2 is indeed at least 1. -/
theorem publication_refcount_invariant_witness : (1 : Int) ≤ 2 :=
  (publication_refcount_invariant (PubState.live 2)
      (@PubReachable.step pubAcquire (PubState.live 2) PubEvent.retain
        PubReachable.init rfl)).1 2 rfl

/- ===== C2: outbound QoS 2 handshake (spec section 4.2) =====
The `Messages` structure (src/Clients.h lines 54-65) carries
`nextMessageType` ("PUBREC, PUBREL, PUBCOMP"); the ledger code that
advances it on acknowledgements is missing from the provided sources, so
the handshake is modelled from the specification. -/

/-- Modelled from the spec: the stage of an outbound QoS 2 ledger entry,
identified by the value of the entry's `nextMessageType` field.
`awaitPubrec` — PUBLISH has been sent and `nextMessageType` awaits PUBREC;
`awaitPubcomp` — PUBREC was received, a PUBREL was sent and
`nextMessageType` awaits PUBCOMP; `removed` — PUBCOMP was received and
the ledger entry was removed. -/
inductive Qos2Stage where
  | awaitPubrec
  | awaitPubcomp
  | removed
  deriving DecidableEq

/-- Modelled from the spec: acknowledgement packets that can arrive for
an outbound QoS 2 ledger entry. -/
inductive Qos2Ack where
  | pubrec
  | pubcomp
  deriving DecidableEq

/-- Modelled from the spec (missing Message Ledger code): how an
acknowledgement advances an outbound QoS 2 entry.  PUBREC is accepted
only while awaiting PUBREC (and moves the entry to awaiting PUBCOMP,
sending a PUBREL); PUBCOMP is accepted only while awaiting PUBCOMP (and
removes the entry); any other combination is a protocol error and does
not advance the entry. -/
def qos2Step : Qos2Stage → Qos2Ack → Option Qos2Stage
  | .awaitPubrec, .pubrec => some .awaitPubcomp
  | .awaitPubcomp, .pubcomp => some .removed
  | _, _ => none

/-- Running an outbound QoS 2 entry through a sequence of acknowledgement
events, failing as soon as one event is not accepted. -/
def qos2Run : Qos2Stage → List Qos2Ack → Option Qos2Stage
  | s, [] => some s
  | s, e :: es => (qos2Step s e).bind (fun t => qos2Run t es)

/-- Claim C2: an outbound QoS 2 ledger entry that starts at PUBLISH-sent
(awaiting PUBREC) reaches removal exactly through the acknowledgement
sequence PUBREC then PUBCOMP — any other sequence fails or stops short —
and no single step skips a stage: a PUBCOMP arriving while the entry
awaits PUBREC is not accepted. -/
theorem qos2_handshake_sequence :
    (∀ es : List Qos2Ack,
      qos2Run Qos2Stage.awaitPubrec es = some Qos2Stage.removed ↔
        es = [Qos2Ack.pubrec, Qos2Ack.pubcomp]) ∧
    qos2Step Qos2Stage.awaitPubrec Qos2Ack.pubcomp = none ∧
    qos2Step Qos2Stage.awaitPubrec Qos2Ack.pubrec
      = some Qos2Stage.awaitPubcomp ∧
    qos2Step Qos2Stage.awaitPubcomp Qos2Ack.pubcomp
      = some Qos2Stage.removed ∧
    (∀ e : Qos2Ack, qos2Step Qos2Stage.removed e = none) := by
  refine ⟨?_, rfl, rfl, rfl, fun e => by cases e <;> rfl⟩
  intro es
  constructor
  · intro h
    match es with
    | [] => simp [qos2Run] at h
    | e :: es' =>
      cases e with
      | pubcomp => simp [qos2Run, qos2Step] at h
      | pubrec =>
        simp only [qos2Run, qos2Step, Option.bind_some] at h
        match es' with
        | [] => simp [qos2Run] at h
        | e' :: es'' =>
          cases e' with
          | pubrec => simp [qos2Run, qos2Step] at h
          | pubcomp =>
            simp only [qos2Run, qos2Step, Option.bind_some] at h
            match es'' with
            | [] => rfl
            | e'' :: _ =>
              cases e'' <;> simp [qos2Run, qos2Step] at h
  · intro h
    subst h
    rfl

/- ===== C3: admission control on the outbound in-flight queue =====
The `Clients` structure holds `outboundMsgs`, `outboundQueue` and
`maxInflightMessages` (src/Clients.h lines 139-146); the admission code is
missing from the provided sources, so it is modelled from the spec. -/

/-- Modelled from the spec (missing Message Ledger code): the per-session
queues involved in admission control.  `outboundMsgs` is the outbound
in-flight queue, `outboundQueue` the pending queue of outbound messages
awaiting admission, `maxInflightMessages` the configured maximum number
of in-flight outbound messages. -/
structure Ledger where
  outboundMsgs : List Nat
  outboundQueue : List Nat
  maxInflightMessages : Nat
  deriving DecidableEq

/-- Modelled from the spec: when a slot may have been freed, promote the
head of the pending queue (FIFO) into the in-flight queue if there is
room. -/
def promotePending (st : Ledger) : Ledger :=
  match st.outboundQueue with
  | [] => st
  | q :: qs =>
    if st.outboundMsgs.length < st.maxInflightMessages then
      { st with outboundMsgs := st.outboundMsgs ++ [q], outboundQueue := qs }
    else st

/-- Modelled from the spec: the ledger events relevant to admission
control — a new outbound QoS>0 publish of message `m`, and the completion
of the acknowledgement handshake for message `m` (PUBACK for QoS 1,
PUBCOMP for QoS 2), which removes the entry. -/
inductive LedgerEvent where
  | publish (m : Nat)
  | ackComplete (m : Nat)
  deriving DecidableEq

/-- Modelled from the spec (missing Message Ledger code): a new outbound
QoS>0 message is appended to the in-flight queue only while its length is
below the maximum, otherwise it is appended to the pending queue; an
acknowledgement completing removes the entry from the in-flight queue, and
the freed slot is offered to the pending queue in FIFO order. -/
def ledgerStep (st : Ledger) : LedgerEvent → Ledger
  | .publish m =>
    if st.outboundMsgs.length < st.maxInflightMessages then
      { st with outboundMsgs := st.outboundMsgs ++ [m] }
    else
      { st with outboundQueue := st.outboundQueue ++ [m] }
  | .ackComplete m =>
    promotePending { st with outboundMsgs := st.outboundMsgs.erase m }

/-- A freshly created session has empty queues (src/Clients.h line 117:
the structure is zero-initialized) and some configured maximum. -/
def ledgerInit (maxInflight : Nat) : Ledger :=
  { outboundMsgs := [], outboundQueue := [], maxInflightMessages := maxInflight }

/-- Ledger states reachable from a fresh session by publish and
acknowledgement events. -/
inductive LedgerReachable (maxInflight : Nat) : Ledger → Prop where
  | init : LedgerReachable maxInflight (ledgerInit maxInflight)
  | step {st : Ledger} (e : LedgerEvent) :
      LedgerReachable maxInflight st →
      LedgerReachable maxInflight (ledgerStep st e)

/-- `promotePending` does not change the configured maximum. -/
theorem promotePending_max (st : Ledger) :
    (promotePending st).maxInflightMessages = st.maxInflightMessages := by
  unfold promotePending
  split
  · rfl
  · split <;> rfl

/-- `promotePending` keeps the in-flight queue within the maximum. -/
theorem promotePending_length_le (st : Ledger)
    (h : st.outboundMsgs.length ≤ st.maxInflightMessages) :
    (promotePending st).outboundMsgs.length ≤
      (promotePending st).maxInflightMessages := by
  unfold promotePending
  split
  · exact h
  · split
    · rename_i q qs hq hlt
      show (st.outboundMsgs ++ [q]).length ≤ st.maxInflightMessages
      rw [List.length_append]
      simp only [List.length_singleton]
      omega
    · exact h

/-- The bounded-in-flight invariant holds in every reachable ledger
state, and the configured maximum never changes. -/
theorem ledgerReachable_invariant (maxInflight : Nat) (st : Ledger)
    (hst : LedgerReachable maxInflight st) :
    st.outboundMsgs.length ≤ st.maxInflightMessages ∧
    st.maxInflightMessages = maxInflight := by
  induction hst with
  | init => exact ⟨Nat.zero_le _, rfl⟩
  | @step st' e ht ih =>
    obtain ⟨ih1, ih2⟩ := ih
    cases e with
    | publish m =>
      unfold ledgerStep
      by_cases h : st'.outboundMsgs.length < st'.maxInflightMessages
      · simp only [h, if_true]
        refine ⟨?_, ih2⟩
        show (st'.outboundMsgs ++ [m]).length ≤ st'.maxInflightMessages
        rw [List.length_append]
        simp only [List.length_singleton]
        omega
      · simp only [h, if_false]
        exact ⟨ih1, ih2⟩
    | ackComplete m =>
      unfold ledgerStep
      refine ⟨?_, ?_⟩
      · apply promotePending_length_le
        show (st'.outboundMsgs.erase m).length ≤ st'.maxInflightMessages
        exact le_trans (List.Sublist.length_le (List.erase_sublist m
          st'.outboundMsgs)) ih1
      · rw [promotePending_max]
        exact ih2

/-- Claim C3: in every reachable ledger state the outbound in-flight
queue length is at most the configured maximum; a publish appends to the
in-flight queue exactly when its length is below the maximum and to the
pending queue otherwise; a publish never shrinks the in-flight queue (so
only an acknowledgement completing frees a slot); and promotion takes the
head of the pending queue, i.e. pending messages are promoted in FIFO
order. -/
theorem outbound_inflight_bounded (maxInflight : Nat) (st : Ledger)
    (hst : LedgerReachable maxInflight st) :
    st.outboundMsgs.length ≤ st.maxInflightMessages ∧
    st.maxInflightMessages = maxInflight ∧
    (∀ m : Nat, st.outboundMsgs.length < st.maxInflightMessages →
      ledgerStep st (LedgerEvent.publish m)
        = { st with outboundMsgs := st.outboundMsgs ++ [m] }) ∧
    (∀ m : Nat, ¬ st.outboundMsgs.length < st.maxInflightMessages →
      ledgerStep st (LedgerEvent.publish m)
        = { st with outboundQueue := st.outboundQueue ++ [m] }) ∧
    (∀ m : Nat, st.outboundMsgs.length ≤
        (ledgerStep st (LedgerEvent.publish m)).outboundMsgs.length) ∧
    (∀ q qs, st.outboundQueue = q :: qs →
      st.outboundMsgs.length < st.maxInflightMessages →
      promotePending st
        = { st with outboundMsgs := st.outboundMsgs ++ [q],
                    outboundQueue := qs }) := by
  obtain ⟨h1, h2⟩ := ledgerReachable_invariant maxInflight st hst
  refine ⟨h1, h2, ?_, ?_, ?_, ?_⟩
  · intro m h
    unfold ledgerStep
    simp only [h, if_true]
  · intro m h
    unfold ledgerStep
    simp only [h, if_false]
  · intro m
    unfold ledgerStep
    by_cases h : st.outboundMsgs.length < st.maxInflightMessages
    · simp only [h, if_true]
      show st.outboundMsgs.length ≤ (st.outboundMsgs ++ [m]).length
      rw [List.length_append]
      omega
    · simp only [h, if_false]
      exact le_refl _
  · intro q qs hq hlt
    unfold promotePending
    rw [hq]
    simp only [hlt, if_true]

/-- Witness for C3: in the session of the spec scenario (maxInflight = 2)
after three publishes, the in-flight queue holds exactly two entries. -/
theorem outbound_inflight_bounded_witness :
    (ledgerStep (ledgerStep (ledgerStep (ledgerInit 2)
        (LedgerEvent.publish 10)) (LedgerEvent.publish 11))
        (LedgerEvent.publish 12)).outboundMsgs.length ≤
      (ledgerStep (ledgerStep (ledgerStep (ledgerInit 2)
        (LedgerEvent.publish 10)) (LedgerEvent.publish 11))
        (LedgerEvent.publish 12)).maxInflightMessages :=
  (outbound_inflight_bounded 2 _
    (LedgerReachable.step (LedgerEvent.publish 12)
      (LedgerReachable.step (LedgerEvent.publish 11)
        (LedgerReachable.step (LedgerEvent.publish 10)
          LedgerReachable.init)))).1

/- ===== C5: message identifier assignment (spec section 4.2) =====
The `Clients` structure holds the rotating counter `msgID`
(src/Clients.h line 134) and `Messages` holds the per-entry `msgid`
(line 58); the assignment code is missing from the provided sources, so
it is modelled from the spec. -/

/-- The largest MQTT message identifier: identifiers are nonzero 16-bit
values, so they range over [1, 65535]. -/
def MAX_MSG_ID : Nat := 65535

/-- Modelled from the spec: the cycle of candidate message identifiers
considered by the rotating counter, starting just after the session's
current `msgID` value and wrapping through the whole nonzero 16-bit
range [1, 65535]. -/
def msgIdCycle (msgID : Nat) : List Nat :=
  (List.range' 1 MAX_MSG_ID).rotate msgID

/-- Modelled from the spec (missing Message Ledger code): a new outbound
QoS>0 message gets the first identifier in the rotating cycle that is not
currently in use in the outbound queue, or 0 when every identifier is in
use (assignment fails). -/
def assignMsgId (msgID : Nat) (outboundIds : List Nat) : Nat :=
  ((msgIdCycle msgID).find? (fun c => decide (c ∉ outboundIds))).getD 0

/-- The candidate cycle has one entry per nonzero 16-bit identifier. -/
theorem msgIdCycle_length (msgID : Nat) :
    (msgIdCycle msgID).length = MAX_MSG_ID := by
  unfold msgIdCycle
  rw [List.length_rotate, List.length_range']

/-- The candidate cycle has no duplicates. -/
theorem msgIdCycle_nodup (msgID : Nat) : (msgIdCycle msgID).Nodup := by
  unfold msgIdCycle
  exact List.nodup_rotate.mpr (List.nodup_range' _ _)

/-- Membership in the candidate cycle is exactly the nonzero 16-bit
range. -/
theorem mem_msgIdCycle (msgID x : Nat) :
    x ∈ msgIdCycle msgID ↔ 1 ≤ x ∧ x ≤ MAX_MSG_ID := by
  unfold msgIdCycle
  rw [List.mem_rotate, List.mem_range'_1]
  omega

/-- Claim C5: as long as fewer than 65535 identifiers are in use in the
outbound in-flight queue, the assigned message identifier is nonzero,
fits in 16 bits, and differs from the identifier of every entry currently
in the outbound in-flight queue — so an identifier held by an incomplete
handshake is never assigned again until that entry completes or is
discarded and leaves the queue. -/
theorem assignMsgId_fresh (msgID : Nat) (outboundIds : List Nat)
    (h : outboundIds.length < MAX_MSG_ID) :
    1 ≤ assignMsgId msgID outboundIds ∧
    assignMsgId msgID outboundIds ≤ MAX_MSG_ID ∧
    assignMsgId msgID outboundIds ∉ outboundIds := by
  unfold assignMsgId
  cases hfind : (msgIdCycle msgID).find? (fun c => decide (c ∉ outboundIds)) with
  | none =>
    exfalso
    have hall := List.find?_eq_none.mp hfind
    have hsub : msgIdCycle msgID ⊆ outboundIds := by
      intro x hx
      simpa using hall x hx
    have hlen : (msgIdCycle msgID).length ≤ outboundIds.length :=
      List.Subperm.length_le ((msgIdCycle_nodup msgID).subperm hsub)
    rw [msgIdCycle_length] at hlen
    omega
  | some a =>
    have hp := List.find?_some hfind
    have hmem : a ∈ msgIdCycle msgID := List.mem_of_find?_eq_some hfind
    have hrange := (mem_msgIdCycle msgID a).mp hmem
    simp only [decide_not, Bool.not_eq_true', decide_eq_false_iff_not] at hp
    exact ⟨hrange.1, hrange.2, hp⟩

/-- Witness for C5: a fresh session (msgID = 0, empty outbound queue) is
assigned an identifier not in its (empty) outbound queue. -/
theorem assignMsgId_fresh_witness : assignMsgId 0 [] ∉ ([] : List Nat) :=
  (assignMsgId_fresh 0 [] (by decide)).2.2

/- ===== C6: keepalive scheduler (spec section 4.4) =====
The `Clients` structure holds the `ping_outstanding` and `ping_due` flags
and `ping_due_time` (src/Clients.h lines 129-132); the scheduler code is
missing from the provided sources, so it is modelled from the spec. -/

/-- Modelled from the spec (missing Keepalive Scheduler code): the
per-session ping state.  `outstandingPings` counts unacknowledged pings in
flight — the `ping_outstanding` flag of the `Clients` structure is set
exactly when this count is nonzero; `ping_due` records a deferred ping
obligation and `ping_due_time` the time at which that ping should have
been sent. -/
structure Keepalive where
  outstandingPings : Nat
  ping_due : Bool
  ping_due_time : Nat
  deriving DecidableEq

/-- Modelled from the spec: the events the scheduler reacts to — a
periodic tick (carrying the current time, whether the keepalive interval
has expired with no data sent, and whether the transport can accept a
write), a ping response from the server, and the dead-connection timeout
that tears the connection down. -/
inductive PingEvent where
  | tick (now : Nat) (due : Bool) (canSend : Bool)
  | pingresp
  | timeout
  deriving DecidableEq

/-- Modelled from the spec (missing Keepalive Scheduler code): on a tick,
if no ping is outstanding and a ping is due (or one was deferred), send
it when the transport can accept writes — raising the single outstanding
ping — and otherwise record the deferred obligation in `ping_due` and
`ping_due_time` rather than dropping it; while a ping is outstanding no
new obligation is raised.  A ping response clears the outstanding ping;
the dead-connection timeout abandons it. -/
def pingStep (s : Keepalive) : PingEvent → Keepalive
  | .tick now due canSend =>
    if s.outstandingPings = 0 then
      if due || s.ping_due then
        if canSend then
          { outstandingPings := 1, ping_due := false, ping_due_time := 0 }
        else
          { s with ping_due := true,
                   ping_due_time := if s.ping_due then s.ping_due_time
                                    else now }
      else s
    else s
  | .pingresp => { s with outstandingPings := s.outstandingPings - 1 }
  | .timeout => { outstandingPings := 0, ping_due := false, ping_due_time := 0 }

/-- A fresh session starts with no outstanding ping and no deferred
obligation (the `Clients` structure is zero-initialized). -/
def pingInit : Keepalive :=
  { outstandingPings := 0, ping_due := false, ping_due_time := 0 }

/-- Keepalive states reachable from a fresh session. -/
inductive PingReachable : Keepalive → Prop where
  | init : PingReachable pingInit
  | step {s : Keepalive} (e : PingEvent) :
      PingReachable s → PingReachable (pingStep s e)

/-- Claim C6: in every reachable keepalive state at most one ping is
outstanding; while one is outstanding a tick raises no second obligation
(the state is unchanged); a ping that becomes due while the transport
cannot send is recorded in `ping_due` — with `ping_due_time` set to the
time it should have been sent — rather than dropped; and a due ping that
can be sent raises exactly one outstanding ping. -/
theorem ping_single_outstanding (s : Keepalive) (hs : PingReachable s) :
    s.outstandingPings ≤ 1 ∧
    (∀ now due canSend, s.outstandingPings ≠ 0 →
      pingStep s (PingEvent.tick now due canSend) = s) ∧
    (∀ now, s.outstandingPings = 0 →
      (pingStep s (PingEvent.tick now true false)).ping_due = true) ∧
    (∀ now, s.outstandingPings = 0 → s.ping_due = false →
      (pingStep s (PingEvent.tick now true false)).ping_due_time = now) ∧
    (∀ now, s.outstandingPings = 0 →
      (pingStep s (PingEvent.tick now true true)).outstandingPings = 1) := by
  refine ⟨?_, ?_, ?_, ?_, ?_⟩
  · induction hs with
    | init => exact Nat.zero_le 1
    | @step t e ht ih =>
      cases e with
      | tick now due canSend =>
        unfold pingStep
        by_cases h0 : t.outstandingPings = 0
        · simp only [h0, if_true]
          by_cases hdue : (due || t.ping_due) = true
          · simp only [hdue, if_true]
            by_cases hcs : canSend
            · simp [hcs]
            · simp [hcs]
          · simp only [Bool.not_eq_true] at hdue
            simp [hdue]
            omega
        · simp only [h0, if_false]
          exact ih
      | pingresp =>
        show t.outstandingPings - 1 ≤ 1
        omega
      | timeout => exact Nat.zero_le 1
  · intro now due canSend h0
    unfold pingStep
    simp [h0]
  · intro now h0
    unfold pingStep
    by_cases hpd : s.ping_due
    · simp [h0, hpd]
    · simp [h0, hpd]
  · intro now h0 hpd
    unfold pingStep
    simp [h0, hpd]
  · intro now h0
    unfold pingStep
    simp [h0]

/-- Witness for C6: the fresh session has at most one outstanding ping. -/
theorem ping_single_outstanding_witness : pingInit.outstandingPings ≤ 1 :=
  (ping_single_outstanding pingInit PingReachable.init).1

/- ===== C7: transport failure handling (spec sections 4.3 and 7) =====
The `Clients` structure holds `good`, `connected` and `connect_state`
(src/Clients.h lines 125-131); the failure-path code is missing from the
provided sources, so it is modelled from the spec. -/

/-- Modelled from the spec (missing Connection State Machine code): a
transport failure — a connect, read or write error at any stage — sets
`good` to false, clears `connected`, and returns `connect_state` to
NOT_IN_PROGRESS, leaving the session eligible for a fresh connection
attempt.  All other fields of the session are untouched. -/
def transportFailure (c : Clients) : Clients :=
  { c with good := false, connected := false,
           connect_state := NOT_IN_PROGRESS }

/-- Modelled from the spec: a transport failure on the i-th session of
the registry is applied to that session only. -/
def failSession : List Clients → Nat → List Clients
  | [], _ => []
  | c :: cs, 0 => transportFailure c :: cs
  | c :: cs, i + 1 => c :: failSession cs i

/-- `failSession` preserves the number of sessions. -/
theorem failSession_length (cs : List Clients) (i : Nat) :
    (failSession cs i).length = cs.length := by
  induction cs generalizing i with
  | nil => rfl
  | cons c cs ih =>
    cases i with
    | zero => rfl
    | succ j => simpa [failSession] using ih j

/-- Claim C7: whatever the connection stage `connect_state` records, a
transport failure leaves the session with `good = false`,
`connected = false` and `connect_state = NOT_IN_PROGRESS` — eligible for
a fresh attempt — while every field other than those three is unchanged;
and in a registry of sessions, a failure on session `i` leaves every
other session exactly as it was. -/
theorem transport_failure_resets (c : Clients) (cs : List Clients)
    (i j : Nat) (hij : i ≠ j) :
    (transportFailure c).good = false ∧
    (transportFailure c).connected = false ∧
    (transportFailure c).connect_state = NOT_IN_PROGRESS ∧
    (transportFailure c).cleansession = c.cleansession ∧
    (transportFailure c).cleanstart = c.cleanstart ∧
    (transportFailure c).ping_outstanding = c.ping_outstanding ∧
    (transportFailure c).ping_due = c.ping_due ∧
    (transportFailure c).msgID = c.msgID ∧
    (transportFailure c).keepAliveInterval = c.keepAliveInterval ∧
    (transportFailure c).maxInflightMessages = c.maxInflightMessages ∧
    (transportFailure c).connect_count = c.connect_count ∧
    (transportFailure c).connect_sent = c.connect_sent ∧
    (transportFailure c).qentry_seqno = c.qentry_seqno ∧
    (failSession cs i).get? j = cs.get? j := by
  refine ⟨rfl, rfl, rfl, rfl, rfl, rfl, rfl, rfl, rfl, rfl, rfl, rfl, rfl, ?_⟩
  induction cs generalizing i j with
  | nil => cases i <;> rfl
  | cons c' cs' ih =>
    cases i with
    | zero =>
      cases j with
      | zero => exact absurd rfl hij
      | succ j' => rfl
    | succ i' =>
      cases j with
      | zero => rfl
      | succ j' =>
        show (failSession cs' i').get? j' = cs'.get? j'
        exact ih i' j' (fun h => hij (by rw [h]))

/-- Witness for C7: failing session 0 of a two-session registry leaves
session 1 untouched. -/
theorem transport_failure_resets_witness :
    (failSession [zeroClients, zeroClients] 0).get? 1
      = [zeroClients, zeroClients].get? 1 :=
  (transport_failure_resets zeroClients [zeroClients, zeroClients] 0 1
    (by decide)).2.2.2.2.2.2.2.2.2.2.2.2.2

/- ===== C8: reconnection resend of persisted entries =====
The `Clients` structure holds the `connect_count` / `connect_sent`
counter pair (src/Clients.h lines 143-144); the resend-on-reconnect code
is missing from the provided sources, so it is modelled from the spec. -/

/-- Modelled from the spec (missing reconnect code): the resend state of
a persisted session immediately after reconnection.  `ledger` is the list
of outbound entries still in the ledger, in their original order;
`connect_count` is the number of outbound messages on reconnect,
`connect_sent` how many of them have been resent so far; `sentLog` is the
sequence of messages handed to the transport on this connection, in
order. -/
structure Resync where
  ledger : List Nat
  connect_count : Nat
  connect_sent : Nat
  sentLog : List Nat
  deriving DecidableEq

/-- Modelled from the spec: on reconnection of a persisted session
(clean-session and clean-start both false), `connect_count` is set to the
number of outbound entries still in the ledger and `connect_sent` to 0;
nothing has been sent on the new connection yet. -/
def startReconnect (ledger : List Nat) : Resync :=
  { ledger := ledger, connect_count := ledger.length, connect_sent := 0,
    sentLog := [] }

/-- Modelled from the spec: the events during the post-reconnect flush —
resending the next not-yet-resent ledger entry, attempting to send a
newly enqueued application publish, and a second disconnect followed by
reconnection mid-flush. -/
inductive RsEvent where
  | resendNext
  | sendNew (m : Nat)
  | reconnect
  deriving DecidableEq

/-- Modelled from the spec (missing reconnect code): while
`connect_sent < connect_count` the next ledger entry, in original order,
is resent and `connect_sent` advances; a newly enqueued application
publish is handed to the transport only once `connect_sent` has reached
`connect_count`; a second disconnect mid-flush starts the flush over on
the new connection, the counter pair tracking it afresh. -/
def rsStep (s : Resync) : RsEvent → Resync
  | .resendNext =>
    if s.connect_sent < s.connect_count then
      { s with sentLog := s.sentLog ++ [s.ledger.getD s.connect_sent 0],
               connect_sent := s.connect_sent + 1 }
    else s
  | .sendNew m =>
    if s.connect_sent < s.connect_count then s
    else { s with sentLog := s.sentLog ++ [m] }
  | .reconnect => startReconnect s.ledger

/-- Resync states reachable from reconnection of a persisted session. -/
inductive RsReachable (ledger : List Nat) : Resync → Prop where
  | init : RsReachable ledger (startReconnect ledger)
  | step {s : Resync} (e : RsEvent) :
      RsReachable ledger s → RsReachable ledger (rsStep s e)

/-- The flush invariant: the counters satisfy
`connect_sent ≤ connect_count = ledger.length`, and everything sent on
this connection is the first `connect_sent` ledger entries, in their
original order, followed by newly enqueued publishes — which are present
only once the flush has completed. -/
theorem rsReachable_invariant (ledger : List Nat) (s : Resync)
    (hs : RsReachable ledger s) :
    s.ledger = ledger ∧
    s.connect_count = ledger.length ∧
    s.connect_sent ≤ s.connect_count ∧
    ∃ news : List Nat,
      s.sentLog = s.ledger.take s.connect_sent ++ news ∧
      (news ≠ [] → s.connect_sent = s.connect_count) := by
  induction hs with
  | init =>
    exact ⟨rfl, rfl, Nat.zero_le _, [], by simp [startReconnect],
      fun h => absurd rfl h⟩
  | @step t e ht ih =>
    obtain ⟨ihl, ihc, ihs, news, ihlog, ihnew⟩ := ih
    cases e with
    | resendNext =>
      unfold rsStep
      by_cases h : t.connect_sent < t.connect_count
      · simp only [h, if_true]
        have hne : news = [] := by
          by_contra hne
          exact absurd (ihnew hne) (Nat.ne_of_lt h)
        subst hne
        refine ⟨ihl, ihc, by omega, [], ?_, fun hf => absurd rfl hf⟩
        simp only [List.append_nil] at ihlog
        have hlt : t.connect_sent < t.ledger.length := by
          rw [ihl]; omega
        rw [ihlog, List.append_nil]
        rw [List.take_succ]
        have : t.ledger.getD t.connect_sent 0 = t.ledger.get ⟨t.connect_sent, hlt⟩ := by
          rw [List.getD_eq_getElem _ _ hlt]
          simp
        rw [this]
        simp [List.getElem?_eq_getElem hlt]
      · simp only [h, if_false]
        exact ⟨ihl, ihc, ihs, news, ihlog, ihnew⟩
    | sendNew m =>
      unfold rsStep
      by_cases h : t.connect_sent < t.connect_count
      · simp only [h, if_true]
        exact ⟨ihl, ihc, ihs, news, ihlog, ihnew⟩
      · simp only [h, if_false]
        refine ⟨ihl, ihc, ihs, news ++ [m], ?_, fun _ => by omega⟩
        simp only [ihlog, List.append_assoc]
    | reconnect =>
      exact ⟨ihl ▸ rfl, ihl ▸ rfl, Nat.zero_le _, [],
        by simp [rsStep, startReconnect], fun h => absurd rfl h⟩

/-- Claim C8: on reconnection of a persisted session, `connect_count` is
set to the number of outbound entries still in the ledger and
`connect_sent` to 0; in every state reachable during the flush — second
disconnects included — what has been sent on the current connection is
exactly the first `connect_sent` ledger entries in their original order,
followed by newly enqueued application publishes, and a new publish can
appear only after all `connect_count` ledger entries have been resent. -/
theorem reconnect_flush_order (ledger : List Nat) (s : Resync)
    (hs : RsReachable ledger s) :
    (startReconnect ledger).connect_count = ledger.length ∧
    (startReconnect ledger).connect_sent = 0 ∧
    s.connect_sent ≤ ledger.length ∧
    (∃ news : List Nat,
      s.sentLog = ledger.take s.connect_sent ++ news ∧
      (news ≠ [] → s.connect_sent = ledger.length)) ∧
    (s.connect_sent = ledger.length →
      ∃ news : List Nat, s.sentLog = ledger ++ news) := by
  obtain ⟨hl, hc, hsle, news, hlog, hnew⟩ := rsReachable_invariant ledger s hs
  refine ⟨rfl, rfl, by omega, ⟨news, by rw [← hl]; exact hlog,
    fun h => by rw [← hc]; exact hnew h⟩, ?_⟩
  intro hdone
  refine ⟨news, ?_⟩
  rw [hlog, hl, hdone, List.take_length]

/-- Witness for C8: right after reconnecting with two persisted entries,
nothing beyond the ledger length has been resent. -/
theorem reconnect_flush_order_witness :
    (startReconnect [5, 6]).connect_sent ≤ [5, 6].length :=
  (reconnect_flush_order [5, 6] (startReconnect [5, 6])
    RsReachable.init).2.2.1

/- ===== C9: persistence bracketing of ledger mutations =====
The `Clients` structure holds the persistence handle and the
`beforeWrite` / `afterRead` callbacks (src/Clients.h lines 148-153); the
ledger code invoking them is missing from the provided sources, so it is
modelled from the spec. -/

/-- Modelled from the spec (missing persistence-bracketing code): the
durable view of one non-clean session.  `outboundMsgs` is the in-flight
queue, `persisted` the set of keys currently in durable storage, and
`livePubs` the Publications not yet released. -/
structure PSession where
  outboundMsgs : List Nat
  persisted : List Nat
  livePubs : List Nat
  deriving DecidableEq

/-- Modelled from the spec: the persistence callback outcome — the
`beforeWrite` hook and the store deletion each either succeed or fail. -/
inductive PResult where
  | ok
  | failed
  deriving DecidableEq

/-- Modelled from the spec (missing ledger code): placing entry `m` on
the in-flight queue of a non-clean session.  The `beforeWrite` hook is
invoked and the entry persisted before it is considered committed; if the
hook fails, the operation is aborted — the session state is returned
unchanged — and the error is surfaced to the application actor. -/
def ledgerPut (beforeWrite : PResult) (s : PSession) (m : Nat) :
    PSession × Option PResult :=
  match beforeWrite with
  | .failed => (s, some .failed)
  | .ok => ({ s with outboundMsgs := s.outboundMsgs ++ [m],
                     persisted := s.persisted ++ [m] }, none)

/-- Modelled from the spec (missing ledger code): removing entry `m` from
the in-flight queue.  The entry is deleted from persistence before its
Publication is released; if the deletion fails, the operation is aborted
— the session state, the Publication included, is returned unchanged —
and the error is surfaced to the application actor. -/
def ledgerRemove (pdelete : PResult) (s : PSession) (m : Nat) :
    PSession × Option PResult :=
  match pdelete with
  | .failed => (s, some .failed)
  | .ok => ({ outboundMsgs := s.outboundMsgs.erase m,
              persisted := s.persisted.erase m,
              livePubs := s.livePubs.erase m }, none)

/-- Claim C9: the persistence hooks bracket ledger mutations
symmetrically.  A successful put commits the entry to the in-flight queue
and to persistence together; a failed `beforeWrite` aborts the put — the
session state is exactly the one before the call, so the entry is not
committed — and surfaces the error.  A successful remove deletes the
entry from persistence and releases its Publication together; a failed
deletion aborts the remove — the Publication is not released, the state
is unchanged — and surfaces the error.  In both failure cases every other
part of the session is untouched and the session remains usable. -/
theorem persistence_brackets_ledger (s : PSession) (m : Nat)
    (hm : m ∈ s.livePubs) :
    (ledgerPut PResult.ok s m).1.outboundMsgs = s.outboundMsgs ++ [m] ∧
    (ledgerPut PResult.ok s m).1.persisted = s.persisted ++ [m] ∧
    (ledgerPut PResult.ok s m).2 = none ∧
    ledgerPut PResult.failed s m = (s, some PResult.failed) ∧
    (ledgerRemove PResult.ok s m).1.outboundMsgs = s.outboundMsgs.erase m ∧
    (ledgerRemove PResult.ok s m).1.persisted = s.persisted.erase m ∧
    (ledgerRemove PResult.ok s m).1.livePubs = s.livePubs.erase m ∧
    ledgerRemove PResult.failed s m = (s, some PResult.failed) ∧
    (ledgerRemove PResult.failed s m).1.livePubs = s.livePubs ∧
    m ∈ (ledgerRemove PResult.failed s m).1.livePubs :=
  ⟨rfl, rfl, rfl, rfl, rfl, rfl, rfl, rfl, rfl, hm⟩

/-- Witness for C9: on a session whose entry 3 is in flight, persisted
and live, a failed deletion leaves the Publication unreleased. -/
theorem persistence_brackets_ledger_witness :
    3 ∈ (ledgerRemove PResult.failed
      { outboundMsgs := [3], persisted := [3], livePubs := [3] }
      3).1.livePubs :=
  (persistence_brackets_ledger
    { outboundMsgs := [3], persisted := [3], livePubs := [3] } 3
    (by decide)).2.2.2.2.2.2.2.2.2
